import Mathlib

/-!
Shallow embedding of `src/bweather.py` (a terminal weather dashboard) in
Lean 4, together with theorems settling the specification claims.

Conventions of the embedding:
* Python floats are modelled as exact rationals (`ℚ`); every arithmetic
  expression is transcribed literally from the source.
* Python `int(x)` (truncation toward zero) is `pyInt`, Python `%` on
  integers with a positive divisor agrees with Lean's `Int.emod`, and
  Python `//` (floor division) is `Int.fdiv`.
* Network I/O is abstracted by passing the two HTTP responses as
  parameters: each is either an error string (HTTP failure / non-2xx,
  i.e. anything `requests.get` or `raise_for_status` raises) or a parsed
  JSON payload in which every field the code accesses is an `Option`
  (a `none` required field models a Python `KeyError`).
* `curses.addstr` is modelled by `addstr`, which fails (as the real
  `addstr` raises `curses.error`) when the start position lies outside
  the window.
-/

namespace BWeather

/-- Python `int(q)` for a float/rational: truncation toward zero. -/
def pyInt (q : ℚ) : ℤ :=
  if 0 ≤ q then ⌊q⌋ else -⌊-q⌋

/-- The 16 compass labels, `bweather.py` lines 85-86. -/
def directions : List String :=
  ["N", "NNE", "NE", "ENE", "E", "ESE", "SE", "SSE",
   "S", "SSW", "SW", "WSW", "W", "WNW", "NW", "NNW"]

/-- `directions[int((wind_deg + 11.25) / 22.5) % 16]`, line 87. -/
def compass (wind_deg : ℚ) : String :=
  directions.getD ((pyInt ((wind_deg + 11.25) / 22.5)) % 16).toNat "N"

/-- One normalized weather reading, the dict built on lines 89-96. -/
structure Reading where
  temp_f : ℚ
  humidity : ℤ
  precip_in : ℚ
  wind_dir : String
  wind_speed_mph : ℚ
  wind_gust_mph : ℚ
deriving Repr, DecidableEq

/-- The fields of the conditions JSON that `get_weather_data` accesses
(lines 70-82).  A `none` in a field the code indexes directly models a
`KeyError`; `gust`, `rain` and `snow` are read with defaults. -/
structure WeatherJson where
  main_temp : Option ℚ
  main_humidity : Option ℤ
  wind_speed : Option ℚ
  wind_gust : Option ℚ
  wind_deg : Option ℚ
  rain_1h : Option ℚ
  snow_1h : Option ℚ
deriving Repr, DecidableEq

/-- A required JSON field: absent ⇒ the `KeyError` the `except` catches. -/
def reqField {α : Type} (o : Option α) (key : String) : Except String α :=
  match o with
  | some v => Except.ok v
  | none => Except.error ("KeyError: " ++ key)

/-- Lines 70-87: turn the conditions payload into a `Reading`.
Transcribed literally — including line 76, where the default for a
missing `gust` is `wind_speed`, which is *already in mph*, and is then
multiplied by 2.23694 again. -/
def processWeather (w : WeatherJson) : Except String Reading := do
  let temp_k ← reqField w.main_temp "temp"
  let temp_f := (temp_k - 273.15) * 9 / 5 + 32
  let humidity ← reqField w.main_humidity "humidity"
  let wind_speed := (← reqField w.wind_speed "speed") * 2.23694
  let wind_gust := (w.wind_gust.getD wind_speed) * 2.23694
  let wind_deg ← reqField w.wind_deg "deg"
  let rain_1h := (w.rain_1h.getD 0) * 0.0393701
  let snow_1h := (w.snow_1h.getD 0) * 0.0393701
  let precip_in := rain_1h + snow_1h
  let wind_dir := compass wind_deg
  return { temp_f := temp_f, humidity := humidity, precip_in := precip_in,
           wind_dir := wind_dir, wind_speed_mph := wind_speed,
           wind_gust_mph := wind_gust }

/-- The geocoding URL of line 54. -/
def geoUrl (apiKey zipcode : String) : String :=
  "http://api.openweathermap.org/geo/1.0/zip?zip=" ++ zipcode ++
    ",us&appid=" ++ apiKey

/-- The conditions URL of line 63. -/
def weatherUrl (apiKey : String) (lat lon : ℚ) : String :=
  "https://api.openweathermap.org/data/2.5/weather?lat=" ++ toString lat ++
    "&lon=" ++ toString lon ++ "&appid=" ++ apiKey

/-- What `get_weather_data` produces: the returned pair `(data, urls)` of
lines 89-99 plus the message printed to stderr on line 98 (if any). -/
structure FetchOutput where
  result : Option Reading
  urls : List String
  stderrMsg : Option String
deriving Repr, DecidableEq

/-- `get_weather_data(api_key, zipcode)`, lines 50-99.  The geocoding
response is either an error or the `(lat, lon)` pair; the conditions
response is either an error or a `WeatherJson`.  The `urls` list grows
exactly as in the source (geo URL appended on line 55, weather URL on
line 64) and is returned in every branch. -/
def get_weather_data (apiKey zipcode : String)
    (geo : Except String (ℚ × ℚ)) (weather : Except String WeatherJson) :
    FetchOutput :=
  let gurl := geoUrl apiKey zipcode
  match geo with
  | Except.error e =>
      { result := none, urls := [gurl],
        stderrMsg := some ("Weather fetch error: " ++ e) }
  | Except.ok (lat, lon) =>
      let wurl := weatherUrl apiKey lat lon
      match weather with
      | Except.error e =>
          { result := none, urls := [gurl, wurl],
            stderrMsg := some ("Weather fetch error: " ++ e) }
      | Except.ok w =>
          match processWeather w with
          | Except.error e =>
              { result := none, urls := [gurl, wurl],
                stderrMsg := some ("Weather fetch error: " ++ e) }
          | Except.ok r =>
              { result := some r, urls := [gurl, wurl], stderrMsg := none }

/-! ### Color classification (curses color pairs, `main` lines 232-282)

The spec names the colors abstractly: color A..F are the temperature
pairs 1..6 and color G..J the humidity/precipitation pairs 7..10, in the
order its §4.3 lists them. -/

def colorA : ℕ := 1
def colorB : ℕ := 2
def colorC : ℕ := 3
def colorD : ℕ := 4
def colorE : ℕ := 5
def colorF : ℕ := 6
def colorG : ℕ := 7
def colorH : ℕ := 8
def colorI : ℕ := 9
def colorJ : ℕ := 10

/-- Temperature color chain, lines 233-245. -/
def temp_color (temp_f : ℚ) : ℕ :=
  if temp_f > 90 then 1
  else if temp_f ≥ 80 then 2
  else if temp_f ≥ 70 then 3
  else if temp_f ≥ 60 then 4
  else if temp_f ≥ 50 then 5
  else 6

/-- Humidity color chain, lines 248-256. -/
def humidity_color (humidity : ℤ) : ℕ :=
  if humidity < 51 then 7
  else if humidity < 60 then 8
  else if humidity < 75 then 9
  else 10

/-- Precipitation color chain, lines 272-282. -/
def precip_color (precip : ℚ) : ℕ :=
  if precip = 0 then 6
  else if precip ≤ 0.1 then 5
  else if precip ≤ 0.3 then 8
  else if precip ≤ 1.0 then 9
  else 10

/-! ### Decimal formatting (Python f-string `:.Nf` and `str(int)`) -/

/-- Round a rational to the nearest integer, ties to even — the rounding
Python's fixed-point float formatting performs. -/
def roundHalfEven (q : ℚ) : ℤ :=
  let f := ⌊q⌋
  let r := q - f
  if r < 1 / 2 then f
  else if 1 / 2 < r then f + 1
  else if f % 2 = 0 then f
  else f + 1

/-- Decimal digit characters of a positive natural number, most
significant first; fuel-based recursion (the fuel bounds the number of
digits, and `n` digits always suffice for `n`). -/
def natDigitsAux : ℕ → ℕ → List Char
  | 0, _ => []
  | _ + 1, 0 => []
  | fuel + 1, n + 1 =>
      natDigitsAux fuel ((n + 1) / 10) ++ [Nat.digitChar ((n + 1) % 10)]

/-- Decimal digit characters of a natural number, most significant first. -/
def natDigits (n : ℕ) : List Char :=
  if n = 0 then ['0'] else natDigitsAux (n + 1) n

/-- Python `str` of an integer. -/
def intStr (i : ℤ) : String :=
  (if i < 0 then "-" else "") ++ String.mk (natDigits i.natAbs)

/-- The digit characters of `|q|·10^d` rounded to an integer, padded
with leading zeros to at least `d + 1` digits. -/
def fmtDigits (q : ℚ) (d : ℕ) : List Char :=
  let ds := natDigits (roundHalfEven (q * (10 : ℚ) ^ d)).natAbs
  if ds.length < d + 1 then List.replicate (d + 1 - ds.length) '0' ++ ds else ds

/-- Python `f"{q:.df}"` on an exact rational: round `q·10^d` to the
nearest integer (ties to even) and place a decimal point `d` digits from
the right (no point when `d = 0`). -/
def formatFixed (q : ℚ) (d : ℕ) : String :=
  let ds := fmtDigits q d
  let sign : List Char := if q < 0 then ['-'] else []
  if d = 0 then String.mk (sign ++ ds)
  else String.mk (sign ++ ds.take (ds.length - d) ++ '.' :: ds.drop (ds.length - d))

/-- The log line written on lines 171-173: timestamp then the reading's
fields, space-separated, newline-terminated. -/
def logLine (timestamp : String) (r : Reading) : String :=
  timestamp ++ " " ++ formatFixed r.temp_f 1 ++ " " ++ intStr r.humidity ++ " " ++
    formatFixed r.precip_in 2 ++ " " ++ r.wind_dir ++ " " ++
    formatFixed r.wind_speed_mph 1 ++ " " ++ formatFixed r.wind_gust_mph 1 ++ "\n"

/-! ### The curses rendering of one tick (`main`, lines 179-304) -/

/-- `stdscr.addstr(y, x, s)`: Python curses raises `curses.error` when
the start position lies outside the window.  On success the draw
operation `(y, x, s)` is recorded. -/
def addstr (maxY maxX y x : ℤ) (s : String) : Except String (ℤ × ℤ × String) :=
  if y < 0 ∨ maxY ≤ y ∨ x < 0 ∨ maxX ≤ x then
    Except.error "curses error: addstr() returned ERR"
  else Except.ok (y, x, s)

/-- Lines 197-208: split the animation frame into parenthesis and
non-parenthesis segments, each tagged with `is_paren`. -/
def splitParens (cs : List Char) : List (String × Bool) :=
  let step := fun (acc : List (String × Bool) × List Char) (c : Char) =>
    if c = '(' ∨ c = ')' then
      let parts := if acc.2.isEmpty then acc.1
        else acc.1 ++ [(String.mk acc.2.reverse, false)]
      (parts ++ [(String.mk [c], true)], ([] : List Char))
    else (acc.1, c :: acc.2)
  let out := cs.foldl step ([], [])
  if out.2.isEmpty then out.1 else out.1 ++ [(String.mk out.2.reverse, false)]

/-- Lines 218-223: draw the header segments left to right, advancing the
x position by each segment's length. -/
def drawParts (maxY maxX y : ℤ) :
    ℤ → List (String × Bool) → Except String (List (ℤ × ℤ × String))
  | _, [] => Except.ok []
  | x, (p, _tag) :: rest => do
      let d ← addstr maxY maxX y x p
      let ds ← drawParts maxY maxX y (x + p.length) rest
      return d :: ds

/-- Lines 287-291: draw the attempted URLs, one per line, each truncated
to `max_x - 1` characters, skipping rows at or below the bottom edge.
(The Python slice `[:max_x-1]` is a plain `take` for `max_x ≥ 1`.) -/
def drawUrls (maxY maxX startLine : ℤ) :
    ℕ → List String → Except String (List (ℤ × ℤ × String))
  | _, [] => Except.ok []
  | i, url :: rest => do
      let here ← (if startLine + (i : ℤ) < maxY then do
          let d ← addstr maxY maxX (startLine + (i : ℤ)) 0
            (("API " ++ intStr ((i : ℤ) + 1) ++ ": " ++ url).take (maxX - 1).toNat)
          return [d]
        else return ([] : List (ℤ × ℤ × String)))
      let rest2 ← drawUrls maxY maxX startLine (i + 1) rest
      return here ++ rest2

/-- The data-present branch of one render (lines 190-296): every
`stdscr.addstr` call, in source order, in the `curses.error` monad.
`frame` is the current animation frame string; `maxY, maxX` the terminal
size from `getmaxyx()`; Python `//` is `Int.fdiv`. -/
def renderData (zipcode frame : String) (r : Reading) (maxY maxX : ℤ)
    (debug : Bool) (urls : List String) (logErr : Option String) :
    Except String (List (ℤ × ℤ × String)) := do
  let startY := Int.fdiv maxY 2 - 2
  let headerZip := zipcode ++ " "
  let headerParts := splitParens frame.data
  let headerTotalLen : ℤ := (headerZip.length : ℤ) +
    (((headerParts.map (fun p => p.1.length)).sum : ℕ) : ℤ)
  let startXheader := Int.fdiv (maxX - headerTotalLen) 2
  let currentLine := startY
  let d0 ← addstr maxY maxX currentLine startXheader headerZip
  let d1 ← drawParts maxY maxX currentLine (startXheader + (headerZip.length : ℤ)) headerParts
  let tempStr := formatFixed r.temp_f 0 ++ "°F"
  let sep := " :: "
  let humidityStr := intStr r.humidity ++ "% RH"
  let line1Len : ℤ := (tempStr.length : ℤ) + (sep.length : ℤ) + (humidityStr.length : ℤ)
  let startXline1 := Int.fdiv (maxX - line1Len) 2
  let d2 ← addstr maxY maxX (currentLine + 1) startXline1 tempStr
  let d3 ← addstr maxY maxX (currentLine + 1) (startXline1 + (tempStr.length : ℤ)) sep
  let d4 ← addstr maxY maxX (currentLine + 1)
    (startXline1 + (tempStr.length : ℤ) + (sep.length : ℤ)) humidityStr
  let windLine := "wind " ++ r.wind_dir ++ " " ++ formatFixed r.wind_speed_mph 0 ++
    "mph (" ++ formatFixed r.wind_gust_mph 0 ++ "mph)"
  let startXwind := Int.fdiv (maxX - (windLine.length : ℤ)) 2
  let d5 ← addstr maxY maxX (currentLine + 2) startXwind windLine
  let precipLine := formatFixed r.precip_in 2 ++ "\"/h precipitation"
  let startXprecip := Int.fdiv (maxX - (precipLine.length : ℤ)) 2
  let d6 ← addstr maxY maxX (currentLine + 3) startXprecip precipLine
  let d7 ← (if debug ∧ urls ≠ [] then drawUrls maxY maxX (currentLine + 5) 0 urls
            else return ([] : List (ℤ × ℤ × String)))
  let d8 ← (if debug ∧ logErr ≠ none ∧ maxY > currentLine + 4 then do
      let d ← addstr maxY maxX (currentLine + 4) 0 ((logErr.getD "").take (maxX - 1).toNat)
      return [d]
    else return ([] : List (ℤ × ℤ × String)))
  return [d0] ++ d1 ++ [d2, d3, d4, d5, d6] ++ d7 ++ d8

/-- The no-data branch (lines 298-302): the centered fetching message. -/
def renderFetching (maxY maxX : ℤ) : Except String (List (ℤ × ℤ × String)) := do
  let message := "Fetching weather data..."
  let startX := Int.fdiv (maxX - (message.length : ℤ)) 2
  let startYmessage := Int.fdiv maxY 2
  let d ← addstr maxY maxX startYmessage startX message
  return [d]

/-! ### The refresh-loop state (`main`, lines 137-177) -/

/-- The mutable loop state of `main` (lines 137-144), the parts the
claims are about. -/
structure LoopState where
  data : Option Reading
  last_update : ℚ
  current_urls : List String
  last_log_time : ℚ
  log_error_msg : Option String
deriving Repr, DecidableEq

/-- The initialization on lines 138-144. -/
def initState : LoopState :=
  { data := none, last_update := 0, current_urls := [],
    last_log_time := 0, log_error_msg := none }

/-- Lines 155-162: the fetch step of one tick.  `now` is `time.time()`;
`fetched` is the pair `(new_data, urls)` that `get_weather_data`
returned. -/
def fetchStep (now : ℚ) (debug : Bool)
    (fetched : Option Reading × List String) (s : LoopState) : LoopState :=
  if now - s.last_update > 60 ∨ s.data = none then
    let s1 := match fetched.1 with
      | some r => { s with data := some r, last_update := now }
      | none => s
    if debug then { s1 with current_urls := fetched.2 } else s1
  else s

/-- Lines 164-177: the logging step of one tick.  `logConfigured` models
`log_config` being non-None and `interval` its `'interval'` field;
`writeResult` models the file write of lines 170-173 (`ok` when it
succeeds, `error e` when it raises with message `e`).  The `Bool` in
the result records whether a write was attempted. -/
def logStep (now interval : ℚ) (logConfigured : Bool)
    (writeResult : Except String Unit) (s : LoopState) : LoopState × Bool :=
  if logConfigured ∧ s.data ≠ none then
    if now - s.last_log_time ≥ interval then
      match writeResult with
      | Except.ok _ =>
          ({ s with last_log_time := now, log_error_msg := none }, true)
      | Except.error e =>
          ({ s with log_error_msg := some ("Log error: " ++ e) }, true)
    else (s, false)
  else (s, false)

/-! ### Concrete payloads and states used by the witnesses -/

/-- A conditions payload with `wind.gust` absent and `wind.speed = 3` m/s
(spec §8's gust-free end-to-end example). -/
def gustFreeJson : WeatherJson :=
  { main_temp := some 300, main_humidity := some 50, wind_speed := some 3,
    wind_gust := none, wind_deg := some 0, rain_1h := none, snow_1h := none }

/-- Spec §8's end-to-end payload
`{temp: 300 K, humidity: 45, wind: {speed: 5, deg: 90}, rain: {'1h': 2}}`. -/
def endToEndJson : WeatherJson :=
  { main_temp := some 300, main_humidity := some 45, wind_speed := some 5,
    wind_gust := none, wind_deg := some 90, rain_1h := some 2, snow_1h := none }

/-- The reading `get_weather_data` builds from `endToEndJson`. -/
def endToEndReading : Reading :=
  { temp_f := 80.33, humidity := 45, precip_in := 0.0787402, wind_dir := "E",
    wind_speed_mph := 11.1847, wind_gust_mph := 11.1847 * 2.23694 }

/-- A fixed reading for concrete witnesses. -/
def sampleReading : Reading :=
  { temp_f := 80.33, humidity := 45, precip_in := 0.0787402, wind_dir := "E",
    wind_speed_mph := 11.1847, wind_gust_mph := 25 }

/-- A loop state holding `sampleReading`, for concrete witnesses. -/
def sampleState : LoopState :=
  { data := some sampleReading, last_update := 50, current_urls := [],
    last_log_time := 10, log_error_msg := none }

/-! ## Helper lemmas -/

lemma pyInt_of_nonneg {q : ℚ} (h : 0 ≤ q) : pyInt q = ⌊q⌋ := if_pos h

/-- Evaluate `compass` once the floor of the scaled bearing is known. -/
lemma compass_eval (b : ℚ) (k : ℤ) (h : 0 ≤ (b + 11.25) / 22.5)
    (hk : ⌊(b + 11.25) / 22.5⌋ = k) :
    compass b = directions.getD (k % 16).toNat "N" := by
  unfold compass
  rw [pyInt_of_nonneg h, hk]

lemma getD_mem {l : List String} {i : ℕ} (h : i < l.length) (d : String) :
    l.getD i d ∈ l := by
  rw [List.getD_eq_getElem l d h]
  exact List.getElem_mem h

lemma compass_0 : compass 0 = "N" := by
  rw [compass_eval 0 0 (by norm_num) (by norm_num [Int.floor_eq_iff])]
  decide

lemma compass_90 : compass 90 = "E" := by
  rw [compass_eval 90 4 (by norm_num) (by norm_num [Int.floor_eq_iff])]
  decide

/-- `processWeather` on the gust-free payload: the reported gust is the
mph wind speed multiplied by 2.23694 once more (line 76). -/
lemma processWeather_gustFree :
    processWeather gustFreeJson =
      Except.ok { temp_f := 80.33, humidity := 50, precip_in := 0,
                  wind_dir := "N", wind_speed_mph := 3 * 2.23694,
                  wind_gust_mph := 3 * 2.23694 * 2.23694 } := by
  unfold processWeather gustFreeJson reqField
  simp only [bind, Except.bind, Option.getD, pure, Except.pure]
  rw [show compass 0 = "N" from compass_0]
  simp only [Except.ok.injEq, Reading.mk.injEq]
  norm_num

/-- `processWeather` on spec §8's end-to-end payload. -/
lemma processWeather_endToEnd :
    processWeather endToEndJson = Except.ok endToEndReading := by
  unfold processWeather endToEndJson reqField
  simp only [bind, Except.bind, Option.getD, pure, Except.pure]
  rw [show compass 90 = "E" from compass_90]
  simp only [endToEndReading, Except.ok.injEq, Reading.mk.injEq]
  norm_num

lemma fmt_speed : formatFixed 11.1847 0 = "11" := by
  simp only [formatFixed, fmtDigits, roundHalfEven]
  norm_num [Int.floor_eq_iff]
  decide

lemma natDigitsAux_chars {fuel n : ℕ} {c : Char} (h : c ∈ natDigitsAux fuel n) :
    ∃ d, d < 10 ∧ c = Nat.digitChar d := by
  induction fuel generalizing n with
  | zero => simp [natDigitsAux] at h
  | succ fuel ih =>
      match n with
      | 0 => simp [natDigitsAux] at h
      | n + 1 =>
          rw [natDigitsAux] at h
          rcases List.mem_append.mp h with h1 | h1
          · exact ih h1
          · refine ⟨(n + 1) % 10, Nat.mod_lt _ (by norm_num), ?_⟩
            simpa using h1

lemma digitChar_ne {d : ℕ} (hd : d < 10) :
    Nat.digitChar d ≠ ' ' ∧ Nat.digitChar d ≠ '\n' := by
  interval_cases d <;> decide

lemma natDigits_chars {n : ℕ} {c : Char} (h : c ∈ natDigits n) :
    c ≠ ' ' ∧ c ≠ '\n' := by
  unfold natDigits at h
  split at h
  · simp at h
    subst h
    decide
  · obtain ⟨d, hd, rfl⟩ := natDigitsAux_chars h
    exact digitChar_ne hd

lemma natDigits_ne_nil (n : ℕ) : natDigits n ≠ [] := by
  unfold natDigits
  split
  · simp
  · match n, ‹n ≠ 0› with
    | n + 1, _ => rw [natDigitsAux]; simp

lemma intStr_ok (i : ℤ) :
    intStr i ≠ "" ∧ ∀ c ∈ (intStr i).data, c ≠ ' ' ∧ c ≠ '\n' := by
  unfold intStr
  constructor
  · intro hcontra
    have h0 : ((if i < 0 then "-" else "") ++ String.mk (natDigits i.natAbs)).data = [] := by
      rw [hcontra]
    rw [String.data_append] at h0
    exact natDigits_ne_nil i.natAbs (List.append_eq_nil.mp h0).2
  · intro c hc
    rw [String.data_append] at hc
    rcases List.mem_append.mp hc with h1 | h1
    · split at h1 <;> simp at h1
      subst h1
      decide
    · exact natDigits_chars h1

lemma fmtDigits_chars {q : ℚ} {d : ℕ} {c : Char} (h : c ∈ fmtDigits q d) :
    c ≠ ' ' ∧ c ≠ '\n' := by
  simp only [fmtDigits] at h
  split at h
  · rcases List.mem_append.mp h with h1 | h1
    · rw [List.eq_of_mem_replicate h1]
      decide
    · exact natDigits_chars h1
  · exact natDigits_chars h

lemma fmtDigits_ne_nil (q : ℚ) (d : ℕ) : fmtDigits q d ≠ [] := by
  simp only [fmtDigits]
  split
  · intro hcontra
    exact natDigits_ne_nil _ (List.append_eq_nil.mp hcontra).2
  · exact natDigits_ne_nil _

/-- A fixed-point-formatted number is nonempty and contains neither a
space nor a newline. -/
lemma formatFixed_ok (q : ℚ) (d : ℕ) :
    formatFixed q d ≠ "" ∧ ∀ c ∈ (formatFixed q d).data, c ≠ ' ' ∧ c ≠ '\n' := by
  rcases eq_or_ne d 0 with rfl | hd
  · rw [show formatFixed q 0 =
        String.mk ((if q < 0 then ['-'] else []) ++ fmtDigits q 0) from rfl]
    constructor
    · intro hcontra
      have h0 : ((if q < 0 then ['-'] else []) ++ fmtDigits q 0 : List Char) = [] :=
        congrArg String.data hcontra
      exact fmtDigits_ne_nil q 0 (List.append_eq_nil.mp h0).2
    · intro c hc
      rcases List.mem_append.mp hc with h1 | h1
      · split at h1 <;> simp at h1
        subst h1
        decide
      · exact fmtDigits_chars h1
  · simp only [formatFixed, if_neg hd]
    constructor
    · intro hcontra
      have h0 : ((if q < 0 then ['-'] else []) ++
          (fmtDigits q d).take ((fmtDigits q d).length - d) ++
            '.' :: (fmtDigits q d).drop ((fmtDigits q d).length - d) : List Char) = [] :=
        congrArg String.data hcontra
      exact List.cons_ne_nil _ _ (List.append_eq_nil.mp h0).2
    · intro c hc
      rcases List.mem_append.mp hc with h1 | h1
      · rcases List.mem_append.mp h1 with h2 | h2
        · split at h2 <;> simp at h2
          subst h2
          decide
        · exact fmtDigits_chars (List.take_subset _ _ h2)
      · rcases List.mem_cons.mp h1 with h3 | h3
        · subst h3; decide
        · exact fmtDigits_chars (List.drop_subset _ _ h3)

lemma directions_ok :
    ∀ s ∈ directions, s ≠ "" ∧ ∀ c ∈ s.data, c ≠ ' ' ∧ c ≠ '\n' := by decide

/-! ## Claim theorems -/

/-- Claim C1 (the code diverges here): for the payload with `wind.gust`
absent and `wind.speed = 3` m/s, the converted wind speed is 6.71082 mph
but the reported gust is `6.71082 · 2.23694 ≈ 15.01` mph — line 76
defaults the missing gust to the *already converted* speed and then
multiplies by 2.23694 again, so gust mph ≠ speed mph, against the claim
that they are exactly equal. -/
theorem gust_double_converted :
    ((get_weather_data "KEY" "69420" (Except.ok (0, 0)) (Except.ok gustFreeJson)).result.map
      (fun r => (r.wind_speed_mph, r.wind_gust_mph)))
      = some (6.71082, 6.71082 * 2.23694) ∧
    (6.71082 * 2.23694 : ℚ) ≠ 6.71082 ∧ (3 : ℚ) * 2.23694 = 6.71082 := by
  refine ⟨?_, by norm_num, by norm_num⟩
  simp only [get_weather_data, processWeather_gustFree, Option.map]
  norm_num

/-- Claim C2 (the code diverges here): at terminal size 24×10, the
centered header start column is `(10 − 16) // 2 = −3`, `addstr` is called
with a negative x and raises `curses.error`; the render aborts instead of
truncating. -/
theorem render_narrow_errors :
    (renderData "69420" "   live   " sampleReading 24 10 false [] none).toOption = none := by
  decide

/-- Claim C3 counterexample: on spec §8's end-to-end payload the
precipitation is 0.0787402 in/hr, which the code classifies as color E
(pair 5, the `precip <= 0.1` branch), not color H as the claim states. -/
theorem endToEnd_precip_not_colorH :
    ((get_weather_data "KEY" "69420" (Except.ok (0, 0)) (Except.ok endToEndJson)).result.map
      (fun r => precip_color r.precip_in)) = some colorE ∧ colorE ≠ colorH := by
  refine ⟨?_, by decide⟩
  simp only [get_weather_data, processWeather_endToEnd, Option.map]
  unfold endToEndReading precip_color colorE
  norm_num

/-- Claim C3 as amended: the end-to-end payload yields temperature
80.33 °F (color B), humidity 45 % (color G), wind "E" at 11.1847 mph
(displayed "11"), and precipitation 0.0787402 in/hr classified as
color E (not H). -/
theorem endToEnd_display :
    (get_weather_data "KEY" "69420" (Except.ok (0, 0)) (Except.ok endToEndJson)).result
      = some endToEndReading ∧
    endToEndReading.temp_f = 80.33 ∧ temp_color endToEndReading.temp_f = colorB ∧
    endToEndReading.humidity = 45 ∧ humidity_color endToEndReading.humidity = colorG ∧
    endToEndReading.wind_dir = "E" ∧ endToEndReading.wind_speed_mph = 11.1847 ∧
    formatFixed endToEndReading.wind_speed_mph 0 = "11" ∧
    endToEndReading.precip_in = 0.0787402 ∧ precip_color endToEndReading.precip_in = colorE := by
  refine ⟨?_, by norm_num [endToEndReading], ?_, by norm_num [endToEndReading], ?_,
    by norm_num [endToEndReading], by norm_num [endToEndReading], ?_,
    by norm_num [endToEndReading], ?_⟩
  · simp only [get_weather_data, processWeather_endToEnd]
  · unfold endToEndReading temp_color colorB
    norm_num
  · unfold endToEndReading humidity_color colorG
    norm_num
  · rw [show endToEndReading.wind_speed_mph = 11.1847 from by norm_num [endToEndReading]]
    exact fmt_speed
  · unfold endToEndReading precip_color colorE
    norm_num

/-- Claim C4: for every bearing `b ∈ [0, 360)`, `compass` selects one of
the 16 labels by offsetting by 11.25°, dividing by 22.5°, flooring and
wrapping mod 16; it is 360°-periodic and maps 0/90/180/270 to N/E/S/W. -/
theorem compass_spec (b : ℚ) (h0 : 0 ≤ b) (h1 : b < 360) :
    compass b = directions.getD ((⌊(b + 11.25) / 22.5⌋ % 16).toNat) "N" ∧
    compass b ∈ directions ∧
    compass (b + 360) = compass b ∧
    compass 0 = "N" ∧ compass 90 = "E" ∧ compass 180 = "S" ∧ compass 270 = "W" := by
  have hnn : (0 : ℚ) ≤ (b + 11.25) / 22.5 := by positivity
  refine ⟨compass_eval b _ hnn rfl, ?_, ?_, compass_0, compass_90, ?_, ?_⟩
  · unfold compass
    apply getD_mem
    have h2 : pyInt ((b + 11.25) / 22.5) % 16 < 16 :=
      Int.emod_lt_of_pos _ (by norm_num)
    have h3 : 0 ≤ pyInt ((b + 11.25) / 22.5) % 16 :=
      Int.emod_nonneg _ (by norm_num)
    simp [directions]
    omega
  · unfold compass
    rw [pyInt_of_nonneg (show (0:ℚ) ≤ (b + 360 + 11.25) / 22.5 by positivity),
        pyInt_of_nonneg hnn,
        show (b + 360 + 11.25) / 22.5 = (b + 11.25) / 22.5 + ((16:ℤ):ℚ) from by
          push_cast; ring,
        Int.floor_add_int]
    congr 2
    omega
  · rw [compass_eval 180 8 (by norm_num) (by norm_num [Int.floor_eq_iff])]
    decide
  · rw [compass_eval 270 12 (by norm_num) (by norm_num [Int.floor_eq_iff])]
    decide

/-- Claim C4 witness at bearing 45. -/
theorem compass_spec_witness :
    compass 45 ∈ directions ∧ compass (45 + 360) = compass 45 :=
  ⟨(compass_spec 45 (by norm_num) (by norm_num)).2.1,
   (compass_spec 45 (by norm_num) (by norm_num)).2.2.1⟩

/-- Claim C5 counterexample: the code colors 90 °F with color B (pair 2),
but 90 lies in none of the claim's six bands — not in `> 90`, not in
`[80, 90)`, and not below 50 — so the stated bands are not a partition
and `[80, 90) → B` mis-states the code's boundary. -/
theorem temp_color_boundary_90 :
    temp_color 90 = colorB ∧ ¬((90 : ℚ) > 90) ∧ ¬(80 ≤ (90 : ℚ) ∧ (90 : ℚ) < 90) ∧
      ¬((90 : ℚ) < 50) := by
  refine ⟨?_, by norm_num, by norm_num, by norm_num⟩
  unfold temp_color colorB
  norm_num

/-- Claim C5 as amended: the temperature bands are `(90,∞) → A`,
`[80,90] → B` (upper bound inclusive), `[70,80) → C`, `[60,70) → D`,
`[50,60) → E`, `(-∞,50) → F`; these do partition the line, so every
temperature falls in exactly one band. -/
theorem temp_color_partition (t : ℚ) :
    (temp_color t = colorA ↔ 90 < t) ∧
    (temp_color t = colorB ↔ 80 ≤ t ∧ t ≤ 90) ∧
    (temp_color t = colorC ↔ 70 ≤ t ∧ t < 80) ∧
    (temp_color t = colorD ↔ 60 ≤ t ∧ t < 70) ∧
    (temp_color t = colorE ↔ 50 ≤ t ∧ t < 60) ∧
    (temp_color t = colorF ↔ t < 50) := by
  unfold temp_color colorA colorB colorC colorD colorE colorF
  split_ifs with h1 h2 h3 h4 h5 <;>
    refine ⟨?_, ?_, ?_, ?_, ?_, ?_⟩ <;> constructor <;> intro h <;>
    first | rfl | linarith | simp_all

/-- Claim C6: a tick whose fetch fails (returns `None`) leaves the
current Reading unchanged, and in general a tick's fetch either leaves
the Reading unchanged or replaces it with the fetched one. -/
theorem failed_fetch_preserves_reading (now : ℚ) (debug : Bool)
    (urls : List String) (res : Option Reading × List String) (s : LoopState) :
    (fetchStep now debug (none, urls) s).data = s.data ∧
    ((fetchStep now debug res s).data = s.data ∨
      (fetchStep now debug res s).data = res.1) := by
  unfold fetchStep
  constructor
  · split_ifs <;> simp
  · rcases res with ⟨d, u⟩
    cases d <;> split_ifs <;> simp

/-- Claim C7: a geocoding failure returns only the geo URL, a reachable
second step always returns both URLs; the result is `None` exactly when
an error message (the one printed to stderr) is produced; and a payload
missing any required field makes `processWeather` fail. -/
theorem fetch_error_contract (apiKey zipcode : String)
    (geo : Except String (ℚ × ℚ)) (weather : Except String WeatherJson) :
    ((∀ e, geo = Except.error e →
        (get_weather_data apiKey zipcode geo weather).urls = [geoUrl apiKey zipcode]) ∧
     (∀ lat lon, geo = Except.ok (lat, lon) →
        (get_weather_data apiKey zipcode geo weather).urls =
          [geoUrl apiKey zipcode, weatherUrl apiKey lat lon])) ∧
    ((get_weather_data apiKey zipcode geo weather).result = none ↔
      ∃ m, (get_weather_data apiKey zipcode geo weather).stderrMsg =
        some ("Weather fetch error: " ++ m)) ∧
    (∀ w : WeatherJson,
      w.main_temp = none ∨ w.main_humidity = none ∨ w.wind_speed = none ∨
        w.wind_deg = none →
      ∃ e, processWeather w = Except.error e) := by
  refine ⟨⟨?_, ?_⟩, ?_, ?_⟩
  · rintro e rfl
    simp [get_weather_data]
  · rintro lat lon rfl
    rcases weather with e | w
    · simp [get_weather_data]
    · simp only [get_weather_data]
      rcases h : processWeather w with e | r <;> simp
  · rcases geo with e | ⟨lat, lon⟩
    · simp [get_weather_data]
    · rcases weather with e | w
      · simp [get_weather_data]
      · simp only [get_weather_data]
        rcases h : processWeather w with e | r <;> simp
  · rintro ⟨t, hm, sp, g, dg, r1, s1⟩ hmiss
    rcases t with _ | t <;> rcases hm with _ | hm <;> rcases sp with _ | sp <;>
      rcases dg with _ | dg <;>
      simp_all [processWeather, reqField, bind, Except.bind]

/-- Claim C8: the log line is the timestamp followed by the six reading
fields — temperature (1 decimal), humidity (integer), precipitation
(2 decimals), compass direction, wind speed and gust (1 decimal each) —
in that order, separated by single spaces, each field nonempty and free
of whitespace, terminated by one newline. -/
theorem logLine_format (ts : String) (r : Reading) (hne : ts ≠ "")
    (hts : ∀ c ∈ ts.data, c ≠ ' ' ∧ c ≠ '\n') (hdir : r.wind_dir ∈ directions) :
    ∃ f : Fin 7 → String,
      logLine ts r = f 0 ++ " " ++ f 1 ++ " " ++ f 2 ++ " " ++ f 3 ++ " " ++
        f 4 ++ " " ++ f 5 ++ " " ++ f 6 ++ "\n" ∧
      (∀ i, f i ≠ "" ∧ ∀ c ∈ (f i).data, c ≠ ' ' ∧ c ≠ '\n') ∧
      f 0 = ts ∧ f 1 = formatFixed r.temp_f 1 ∧ f 2 = intStr r.humidity ∧
      f 3 = formatFixed r.precip_in 2 ∧ f 4 = r.wind_dir ∧
      f 5 = formatFixed r.wind_speed_mph 1 ∧ f 6 = formatFixed r.wind_gust_mph 1 := by
  refine ⟨fun i => [ts, formatFixed r.temp_f 1, intStr r.humidity,
      formatFixed r.precip_in 2, r.wind_dir, formatFixed r.wind_speed_mph 1,
      formatFixed r.wind_gust_mph 1].getD i.val "", ?_, ?_, rfl, rfl, rfl, rfl, rfl, rfl, rfl⟩
  · rfl
  · rintro ⟨v, hv⟩
    interval_cases v
    · exact ⟨hne, hts⟩
    · exact formatFixed_ok r.temp_f 1
    · exact intStr_ok r.humidity
    · exact formatFixed_ok r.precip_in 2
    · exact directions_ok _ hdir
    · exact formatFixed_ok r.wind_speed_mph 1
    · exact formatFixed_ok r.wind_gust_mph 1

/-- Claim C8 witness at a concrete timestamp and reading. -/
theorem logLine_format_witness :
    ∃ f : Fin 7 → String,
      logLine "2026-10-12T10:00:00" sampleReading = f 0 ++ " " ++ f 1 ++ " " ++ f 2 ++ " " ++
        f 3 ++ " " ++ f 4 ++ " " ++ f 5 ++ " " ++ f 6 ++ "\n" ∧
      (∀ i, f i ≠ "" ∧ ∀ c ∈ (f i).data, c ≠ ' ' ∧ c ≠ '\n') ∧
      f 0 = "2026-10-12T10:00:00" ∧ f 1 = formatFixed sampleReading.temp_f 1 ∧
      f 2 = intStr sampleReading.humidity ∧ f 3 = formatFixed sampleReading.precip_in 2 ∧
      f 4 = sampleReading.wind_dir ∧ f 5 = formatFixed sampleReading.wind_speed_mph 1 ∧
      f 6 = formatFixed sampleReading.wind_gust_mph 1 :=
  logLine_format "2026-10-12T10:00:00" sampleReading (by decide) (by decide) (by decide)

/-- Claim C9: when a due log write fails, the last-log timestamp and so
the due-condition are unchanged (any `now2 ≥ now` is still due, i.e. the
write is retried on the very next tick) and the error message is
retained; when it succeeds, the timestamp advances to `now` and the
retained error is cleared. -/
theorem log_write_outcome (now now2 interval : ℚ) (e : String) (s : LoopState)
    (hdata : s.data ≠ none) (helapsed : now - s.last_log_time ≥ interval) :
    ((logStep now interval true (Except.error e) s).1.last_log_time = s.last_log_time ∧
     (logStep now interval true (Except.error e) s).1.log_error_msg =
       some ("Log error: " ++ e) ∧
     (logStep now interval true (Except.error e) s).2 = true) ∧
    (now ≤ now2 →
      now2 - (logStep now interval true (Except.error e) s).1.last_log_time ≥ interval) ∧
    ((logStep now interval true (Except.ok ()) s).1.last_log_time = now ∧
     (logStep now interval true (Except.ok ()) s).1.log_error_msg = none ∧
     (logStep now interval true (Except.ok ()) s).2 = true) := by
  unfold logStep
  simp [hdata, helapsed]
  intro h
  linarith

/-- Claim C9 witness at a concrete state and times. -/
theorem log_write_outcome_witness :
    (logStep 100 60 true (Except.error "disk full") sampleState).1.last_log_time =
      sampleState.last_log_time ∧
    (logStep 100 60 true (Except.ok ()) sampleState).1.last_log_time = 100 :=
  ⟨((log_write_outcome 100 200 60 "disk full" sampleState (by decide)
      (by norm_num [sampleState])).1).1,
   ((log_write_outcome 100 200 60 "disk full" sampleState (by decide)
      (by norm_num [sampleState])).2).2.1⟩

/-- Claim C10: starting from the initial state (last-log time 0), a
first tick that obtains a Reading at epoch time `now ≥ interval`
immediately attempts a log write: the program does not wait one full
interval before the first write. -/
theorem first_tick_writes_log (now interval : ℚ) (debug : Bool) (r : Reading)
    (urls : List String) (w : Except String Unit) (hnow : interval ≤ now) :
    (fetchStep now debug (some r, urls) initState).data = some r ∧
    (fetchStep now debug (some r, urls) initState).last_log_time = 0 ∧
    (logStep now interval true w (fetchStep now debug (some r, urls) initState)).2 = true := by
  unfold fetchStep initState
  simp only [if_pos (Or.inr rfl)]
  cases debug <;> unfold logStep <;> cases w <;> simp [hnow]

/-- Claim C10 witness at epoch time 100 with a one-minute interval. -/
theorem first_tick_writes_log_witness :
    (logStep 100 60 true (Except.ok ())
      (fetchStep 100 false (some sampleReading, []) initState)).2 = true :=
  (first_tick_writes_log 100 60 false sampleReading [] (Except.ok ()) (by norm_num)).2.2

end BWeather
